import Mathlib

/-!
Shallow embedding of the broadcast CLI's core (konard/broadcast): the three
platform adapters (Telegram = messaging, VK = wall, X = microblog), their
configuration validation, and the dispatcher in `src/broadcast.mjs`.

Environment variables are modelled as explicit structures of strings read once
at startup; JavaScript truthiness of such a string is non-emptiness.  Network
calls are modelled by an explicit outcome parameter (`Except String α`): an
`Except.error msg` stands for the underlying call throwing an exception whose
`.message` is `msg`, an `Except.ok v` for the call returning normally with the
data the adapter reads off the response.
-/

/-- JavaScript truthiness of an environment string (`getenv` defaults to `''`,
so a missing variable is the empty string, which is falsy). -/
def truthy (s : String) : Bool := !s.isEmpty

/-- A provider-assigned message identifier: an integer for the Telegram and VK
APIs, a string for the X API (`result.data.id`). -/
inductive MsgId where
  | int : Int → MsgId
  | str : String → MsgId
deriving DecidableEq

/-- The normalized per-platform result record the adapters and the dispatcher
return (`success`, `platform`, optional `error`, `messageId`, `method`).  The
raw provider response (`result` field in the JS objects) and the Telegram
`chatEntity` field are not modelled: no claim reads them. -/
structure DispatchResult where
  success : Bool
  platform : String
  error : Option String := none
  messageId : Option MsgId := none
  method : Option String := none
deriving DecidableEq

/-- The `{ isValid, errors }` record returned by a content validator. -/
structure ValidationResult where
  isValid : Bool
  errors : List String
deriving DecidableEq

/-- The `{ success, platform, message }` record returned by every adapter's
`test()`. -/
structure TestOutcome where
  success : Bool
  platform : String
  message : String
deriving DecidableEq

/-! ## X.com (microblog) adapter — `src/x.mjs` -/

/-- The environment variables `XConfig`'s constructor reads (src/x.mjs lines
12-28); a variable that is not set is the empty string. -/
structure XEnv where
  clientId : String
  clientSecret : String
  accessToken : String
  accessTokenSecret : String
  apiKey : String
  apiKeySecret : String
  bearerToken : String
deriving DecidableEq

/-- `XConfig.hasOAuth2UserAuth` (src/x.mjs lines 33-35): all four OAuth 2.0
fields truthy. -/
def XConfig.hasOAuth2UserAuth (e : XEnv) : Bool :=
  truthy e.clientId && truthy e.clientSecret && truthy e.accessToken &&
    truthy e.accessTokenSecret

/-- `XConfig.hasOAuth1UserAuth` (src/x.mjs lines 40-42): key pair plus the same
token pair, all truthy. -/
def XConfig.hasOAuth1UserAuth (e : XEnv) : Bool :=
  truthy e.apiKey && truthy e.apiKeySecret && truthy e.accessToken &&
    truthy e.accessTokenSecret

/-- `XConfig.hasBearerAuth` (src/x.mjs lines 47-49). -/
def XConfig.hasBearerAuth (e : XEnv) : Bool := truthy e.bearerToken

/-- The aggregate error pushed when no scheme is complete (src/x.mjs line 59). -/
def XConfig.noAuthError : String :=
  "At least one authentication method is required: OAuth 2.0 user auth (X_CLIENT_ID + X_CLIENT_SECRET + X_ACCESS_TOKEN + X_ACCESS_TOKEN_SECRET), OAuth 1.0a user auth (X_API_KEY + X_API_KEY_SECRET + X_ACCESS_TOKEN + X_ACCESS_TOKEN_SECRET), or Bearer token (X_BEARER_TOKEN)"

/-- `XConfig.validate` (src/x.mjs lines 55-77): the `errors` array it builds,
in push order. -/
def XConfig.validate (e : XEnv) : List String :=
  (if !XConfig.hasOAuth2UserAuth e && !XConfig.hasOAuth1UserAuth e &&
      !XConfig.hasBearerAuth e then [XConfig.noAuthError] else [])
  ++ (if XConfig.hasOAuth2UserAuth e then
        (if !truthy e.clientId then
          ["X_CLIENT_ID is required for OAuth 2.0 user auth"] else [])
        ++ (if !truthy e.clientSecret then
          ["X_CLIENT_SECRET is required for OAuth 2.0 user auth"] else [])
        ++ (if !truthy e.accessToken then
          ["X_ACCESS_TOKEN is required for OAuth 2.0 user auth"] else [])
        ++ (if !truthy e.accessTokenSecret then
          ["X_ACCESS_TOKEN_SECRET is required for OAuth 2.0 user auth"] else [])
      else [])
  ++ (if XConfig.hasOAuth1UserAuth e && !XConfig.hasOAuth2UserAuth e then
        (if !truthy e.apiKey then
          ["X_API_KEY is required for OAuth 1.0a user auth"] else [])
        ++ (if !truthy e.apiKeySecret then
          ["X_API_KEY_SECRET is required for OAuth 1.0a user auth"] else [])
        ++ (if !truthy e.accessToken then
          ["X_ACCESS_TOKEN is required for OAuth 1.0a user auth"] else [])
        ++ (if !truthy e.accessTokenSecret then
          ["X_ACCESS_TOKEN_SECRET is required for OAuth 1.0a user auth"] else [])
      else [])

/-- `XConfig.isValid` (src/x.mjs lines 83-85): the error list is empty. -/
def XConfig.isValid (e : XEnv) : Bool := (XConfig.validate e).length == 0

/-- The `authMethod` set by `XBroadcaster.initializeClient` (src/x.mjs lines
108-151): OAuth 2.0 first, then OAuth 1.0a, then Bearer, else no client.
Construction of the `TwitterApi` handle itself is modelled as always
succeeding, so the client is non-null exactly when a branch was taken. -/
def XBroadcaster.authMethod (e : XEnv) : Option String :=
  if XConfig.hasOAuth2UserAuth e then some "OAuth 2.0 User"
  else if XConfig.hasOAuth1UserAuth e then some "OAuth 1.0a User"
  else if XConfig.hasBearerAuth e then some "Bearer Token"
  else none

/-- `this.client !== null` after `initializeClient` ran. -/
def XBroadcaster.clientReady (e : XEnv) : Bool := (XBroadcaster.authMethod e).isSome

/-- `XBroadcaster.isConfigured` (src/x.mjs lines 156-158). -/
def XBroadcaster.isConfigured (e : XEnv) : Bool :=
  XConfig.isValid e && XBroadcaster.clientReady e

/-- `XBroadcaster.getConfigurationErrors` (src/x.mjs lines 163-169). -/
def XBroadcaster.getConfigurationErrors (e : XEnv) : List String :=
  let errors := XConfig.validate e
  if XConfig.isValid e && !XBroadcaster.clientReady e then
    errors ++ ["Failed to initialize X.com client"]
  else errors

/-- The try-block of `XBroadcaster.send` (src/x.mjs lines 174-196): may throw
(`Except.error`).  `net` is the outcome of `client.v2.tweet(message)`: on
success it carries the tweet id `result.data.id`. -/
def XBroadcaster.sendAttempt (e : XEnv) (net : Except String String) :
    Except String DispatchResult :=
  if !XBroadcaster.clientReady e then
    Except.error "X.com client not initialized - check authentication credentials"
  else if XBroadcaster.authMethod e == some "Bearer Token" then
    Except.error "Bearer token authentication cannot post tweets - user authentication required"
  else
    match net with
    | Except.error msg => Except.error msg
    | Except.ok tweetId =>
        Except.ok { success := true, platform := "x",
                    messageId := some (MsgId.str tweetId),
                    method := XBroadcaster.authMethod e }

/-- `XBroadcaster.send` (src/x.mjs lines 174-205): the catch converts any
thrown error into a `success: false` result. -/
def XBroadcaster.send (e : XEnv) (net : Except String String) : DispatchResult :=
  match XBroadcaster.sendAttempt e net with
  | Except.ok r => r
  | Except.error msg => { success := false, platform := "x", error := some msg }

/-- Modelled from the spec: `validateMessage` for the microblog adapter is
called by `src/broadcast.mjs` and the experiment scripts but its implementation
is not among the repository's source files.  The spec says the text length
must not exceed the platform's fixed character ceiling of 280 code units
(`String.length` stands in for the code-unit count).  The error wording is
ours; no claim depends on it. -/
def XBroadcaster.validateMessage (text : String) : ValidationResult :=
  if text.length > 280 then
    { isValid := false,
      errors := ["Message exceeds the 280 character limit for X.com"] }
  else { isValid := true, errors := [] }

/-- The underlying API operations `XBroadcaster.test` can invoke. -/
inductive XApiCall where
  | tweetPost
  | tweetDelete
  | me
deriving DecidableEq

/-- Whether an `XApiCall` posts a tweet. -/
def XApiCall.isTweetPost : XApiCall → Bool
  | XApiCall.tweetPost => true
  | _ => false

/-- `XBroadcaster.test` (src/x.mjs lines 245-280) together with the list of
underlying API operations it performs.  `meNet` is the outcome of
`client.v2.me()`: on success it carries `userInfo.data.username`.  The body
never posts a message: for bearer token it returns immediately, otherwise it
only fetches the authenticated user. -/
def XBroadcaster.test (e : XEnv) (meNet : Except String String) :
    TestOutcome × List XApiCall :=
  if !XBroadcaster.isConfigured e then
    ({ success := false, platform := "x",
       message := "X.com: Configuration errors - " ++
         String.intercalate ", " (XBroadcaster.getConfigurationErrors e) }, [])
  else if XBroadcaster.authMethod e == some "Bearer Token" then
    ({ success := true, platform := "x",
       message := "X.com: Bearer token authentication configured (limited functionality - cannot post/delete tweets)" },
     [])
  else
    match meNet with
    | Except.ok username =>
        ({ success := true, platform := "x",
           message := "X.com: Connection successful using " ++
             (XBroadcaster.authMethod e).getD "undefined" ++
             " (authenticated as @" ++ username ++ ")" }, [XApiCall.me])
    | Except.error msg =>
        ({ success := false, platform := "x", message := "X.com: " ++ msg },
         [XApiCall.me])

/-! ## Telegram (messaging) adapter — `src/telegram.mjs` (src/unnamed/part_004) -/

/-- The environment variables `TelegramConfig`'s constructor reads (lines
27-41): bot scheme (token + channel id) and user scheme (API id/hash + phone +
chat username-or-id). -/
structure TgEnv where
  botToken : String
  channelId : String
  userBotApiId : String
  userBotApiHash : String
  userBotPhone : String
  userBotChatUsername : String
  userBotChatId : String
deriving DecidableEq

/-- `TelegramConfig.hasBotAuth` (lines 46-48). -/
def TelegramConfig.hasBotAuth (e : TgEnv) : Bool :=
  truthy e.botToken && truthy e.channelId

/-- `TelegramConfig.hasUserAuth` (lines 53-56). -/
def TelegramConfig.hasUserAuth (e : TgEnv) : Bool :=
  truthy e.userBotApiId && truthy e.userBotApiHash && truthy e.userBotPhone &&
    (truthy e.userBotChatUsername || truthy e.userBotChatId)

/-- `TelegramConfig.validate` (lines 62-79): the `errors` array in push order. -/
def TelegramConfig.validate (e : TgEnv) : List String :=
  (if !TelegramConfig.hasBotAuth e && !TelegramConfig.hasUserAuth e then
    ["Either bot authentication (TELEGRAM_BOT_TOKEN + TELEGRAM_CHANNEL_ID) or user authentication (TELEGRAM_USER_BOT_*) is required"]
   else [])
  ++ (if TelegramConfig.hasUserAuth e then
        (if !truthy e.userBotApiId then
          ["TELEGRAM_USER_BOT_API_ID is required for user auth"] else [])
        ++ (if !truthy e.userBotApiHash then
          ["TELEGRAM_USER_BOT_API_HASH is required for user auth"] else [])
        ++ (if !truthy e.userBotPhone then
          ["TELEGRAM_USER_BOT_PHONE is required for user auth"] else [])
        ++ (if !truthy e.userBotChatUsername && !truthy e.userBotChatId then
          ["Either TELEGRAM_USER_BOT_CHAT_USERNAME or TELEGRAM_USER_BOT_CHAT_ID is required for user auth"]
           else [])
      else [])

/-- `TelegramConfig.isValid` (lines 85-87). -/
def TelegramConfig.isValid (e : TgEnv) : Bool :=
  (TelegramConfig.validate e).length == 0

/-- `TelegramBroadcaster.isConfigured` (lines 193-195). -/
def TelegramBroadcaster.isConfigured (e : TgEnv) : Bool := TelegramConfig.isValid e

/-- `TelegramBroadcaster.getConfigurationErrors` (lines 200-202). -/
def TelegramBroadcaster.getConfigurationErrors (e : TgEnv) : List String :=
  TelegramConfig.validate e

/-- Outcomes of the Telegram network calls one `send`/`deleteMessage` can make.
`botSend` carries `result.result.message_id` on success, `userSend` carries
`result.id`; the delete outcomes carry no data the code reads. -/
structure TgNet where
  botSend : Except String Int
  userSend : Except String Int
  botDelete : Except String Unit
  userDelete : Except String Unit

/-- The try-block of `TelegramBroadcaster.send` (lines 207-216) inlining
`sendViaBot` (lines 230-263) and `sendViaUser` (lines 268-296): bot auth
preferred, each path may throw.  The `!this.baseUrl` throw inside `sendViaBot`
is kept although `hasBotAuth` already implies a truthy bot token. -/
def TelegramBroadcaster.sendAttempt (e : TgEnv) (net : TgNet) :
    Except String DispatchResult :=
  if TelegramConfig.hasBotAuth e then
    if !truthy e.botToken then Except.error "Telegram bot token not configured"
    else
      match net.botSend with
      | Except.error msg => Except.error msg
      | Except.ok mid =>
          Except.ok { success := true, platform := "telegram",
                      method := some "bot", messageId := some (MsgId.int mid) }
  else if TelegramConfig.hasUserAuth e then
    match net.userSend with
    | Except.error msg => Except.error msg
    | Except.ok mid =>
        Except.ok { success := true, platform := "telegram",
                    method := some "user", messageId := some (MsgId.int mid) }
  else Except.error "No valid authentication method configured"

/-- `TelegramBroadcaster.send` (lines 207-225): the catch converts any thrown
error into a `success: false` result. -/
def TelegramBroadcaster.send (e : TgEnv) (net : TgNet) : DispatchResult :=
  match TelegramBroadcaster.sendAttempt e net with
  | Except.ok r => r
  | Except.error msg =>
      { success := false, platform := "telegram", error := some msg }

/-- The resolved Telegram chat entity the user-client delete path inspects:
its `className` string and its `megagroup` flag (lines 376-383). -/
structure TgEntity where
  className : String
  megagroup : Bool
deriving DecidableEq

/-- The two wire delete operations `deleteViaUser` can invoke. -/
inductive TgDeleteCall where
  | channelsDeleteMessages : List Int → TgDeleteCall
  | messagesDeleteMessages : List Int → Bool → TgDeleteCall
deriving DecidableEq

/-- The operation-selection branching of `TelegramBroadcaster.deleteViaUser`
(lines 385-426): `Channel` entities and megagroup-flagged `Chat` entities get
the channel-scoped `Api.channels.DeleteMessages`; plain `Chat` entities and
anything else (user conversations) get `Api.messages.DeleteMessages` with
`revoke: true`. -/
def TelegramBroadcaster.deleteViaUserCall (entity : TgEntity) (messageId : Int) :
    TgDeleteCall :=
  if entity.className == "Channel" then
    TgDeleteCall.channelsDeleteMessages [messageId]
  else if entity.className == "Chat" then
    if entity.megagroup then TgDeleteCall.channelsDeleteMessages [messageId]
    else TgDeleteCall.messagesDeleteMessages [messageId] true
  else TgDeleteCall.messagesDeleteMessages [messageId] true

/-- The canary text `TelegramBroadcaster.test` posts (line 443). -/
def tgCanaryText : String := "🧪 Test message from broadcast CLI"

/-- The adapter-level operations `TelegramBroadcaster.test` performs, in order. -/
inductive TgOp where
  | send : String → TgOp
  | deleteCleanup
deriving DecidableEq

/-- `TelegramBroadcaster.test` (lines 441-474) together with the list of
adapter operations it performs.  It sends the canary; on success it calls
`deleteMessage` on the canary inside its own try/catch and ignores the
outcome entirely (a cleanup failure is only logged), then reports success;
on failure it reports the send error.  The delete outcome fields of `net`
are therefore never read. -/
def TelegramBroadcaster.test (e : TgEnv) (net : TgNet) :
    TestOutcome × List TgOp :=
  let r := TelegramBroadcaster.send e net
  if r.success then
    ({ success := true, platform := "telegram",
       message := "Telegram: Connection successful" },
     [TgOp.send tgCanaryText, TgOp.deleteCleanup])
  else
    ({ success := false, platform := "telegram",
       message := "Telegram: " ++ r.error.getD "undefined" },
     [TgOp.send tgCanaryText])

/-! ## VK (wall) adapter — `src/vk.mjs` -/

/-- The environment variables `VKConfig`'s constructor reads (src/vk.mjs lines
11-17); `apiVersion` and `logLevel` play no role in any claim. -/
structure VKEnv where
  accessToken : String
  groupId : String
deriving DecidableEq

/-- `VKConfig.validate` (src/vk.mjs lines 23-35). -/
def VKConfig.validate (e : VKEnv) : List String :=
  (if !truthy e.accessToken then ["VK_ACCESS_TOKEN is required"] else [])
  ++ (if !truthy e.groupId then ["VK_GROUP_ID is required"] else [])

/-- `VKConfig.isValid` (src/vk.mjs lines 41-43). -/
def VKConfig.isValid (e : VKEnv) : Bool := (VKConfig.validate e).length == 0

/-- `VKBroadcaster.isConfigured` (src/vk.mjs lines 63-65). -/
def VKBroadcaster.isConfigured (e : VKEnv) : Bool := VKConfig.isValid e

/-- `VKBroadcaster.getConfigurationErrors` (src/vk.mjs lines 70-72). -/
def VKBroadcaster.getConfigurationErrors (e : VKEnv) : List String :=
  VKConfig.validate e

/-- The try-block of `VKBroadcaster.send` (src/vk.mjs lines 77-107): `net` is
the outcome of the `wall.post` fetch (an `Except.error` stands for a fetch
failure or for the thrown `VK API error: ...` when the response carries an
`error`).  The success result carries no `messageId` field: the code returns
only `success`, `platform` and the raw response. -/
def VKBroadcaster.sendAttempt (_e : VKEnv) (net : Except String Unit) :
    Except String DispatchResult :=
  match net with
  | Except.error msg => Except.error msg
  | Except.ok _ => Except.ok { success := true, platform := "vk" }

/-- `VKBroadcaster.send` (src/vk.mjs lines 77-116): the catch converts any
thrown error into a `success: false` result. -/
def VKBroadcaster.send (e : VKEnv) (net : Except String Unit) : DispatchResult :=
  match VKBroadcaster.sendAttempt e net with
  | Except.ok r => r
  | Except.error msg => { success := false, platform := "vk", error := some msg }

/-- The canary text `VKBroadcaster.test` posts (src/vk.mjs line 123). -/
def vkCanaryText : String := "🧪 Test message from broadcast CLI"

/-- The adapter-level operations `VKBroadcaster.test` performs. -/
inductive VKOp where
  | send : String → VKOp
deriving DecidableEq

/-- `VKBroadcaster.test` (src/vk.mjs lines 121-146) with its operation log: it
sends the canary and reports the send's own success or failure; the VK
broadcaster has no `deleteMessage`, so no cleanup is attempted. -/
def VKBroadcaster.test (e : VKEnv) (net : Except String Unit) :
    TestOutcome × List VKOp :=
  let r := VKBroadcaster.send e net
  if r.success then
    ({ success := true, platform := "vk", message := "VK: Connection successful" },
     [VKOp.send vkCanaryText])
  else
    ({ success := false, platform := "vk",
       message := "VK: " ++ r.error.getD "undefined" },
     [VKOp.send vkCanaryText])

/-! ## Dispatcher — `src/broadcast.mjs` -/

/-- The outcome of calling one adapter's `send`: a returned result, or (for a
hypothetical adapter that violates the boundary contract) a thrown fault with
its message.  The three real adapters always return (`SendOutcome.ok`), but
the dispatcher's send loop guards against throws (src/broadcast.mjs lines
100-111). -/
inductive SendOutcome where
  | ok : DispatchResult → SendOutcome
  | thrown : String → SendOutcome

/-- One entry of the dispatcher's duck-typed `broadcasters` list: the fields of
an adapter instance that `broadcast` (src/broadcast.mjs lines 34-113) reads.
`validateMessage` is `none` for an adapter without that method (the
`typeof broadcaster.validateMessage === 'function'` check on line 70). -/
structure Adapter where
  name : String
  isConfigured : Bool
  configurationErrors : List String
  validateMessage : Option (String → ValidationResult)
  send : String → SendOutcome

/-- The pre-flight validation loop (src/broadcast.mjs lines 57-79): for each
target in order, an unconfigured adapter records
`Configuration errors: <joined>`, a configured adapter with a `validateMessage`
method records that method's errors when the message is invalid, and every
other adapter records nothing. -/
def preflightFailures : List Adapter → String → List (String × List String)
  | [], _ => []
  | b :: rest, message =>
    if !b.isConfigured then
      (b.name,
        ["Configuration errors: " ++ String.intercalate ", " b.configurationErrors])
        :: preflightFailures rest message
    else
      match b.validateMessage with
      | some vm =>
          if !(vm message).isValid then
            (b.name, (vm message).errors) :: preflightFailures rest message
          else preflightFailures rest message
      | none => preflightFailures rest message

/-- The send loop (src/broadcast.mjs lines 100-111): invoke `send` on every
target in order; a thrown fault becomes a `success: false` entry for that
platform and the loop continues.  Returns the result list together with the
names of the adapters whose `send` was invoked. -/
def sendPhase : List Adapter → String → List DispatchResult × List String
  | [], _ => ([], [])
  | b :: rest, message =>
    let r := match b.send message with
      | SendOutcome.ok res => res
      | SendOutcome.thrown msg =>
          { success := false, platform := b.name, error := some msg }
    let tailRes := sendPhase rest message
    (r :: tailRes.1, b.name :: tailRes.2)

/-- Platform-name resolution (src/broadcast.mjs lines 40-48): `all` selects
every registered adapter in registration order, otherwise each requested name
is looked up and unrecognized names are silently dropped. -/
def resolveTargets (broadcasters : List Adapter) (platforms : List String) :
    List Adapter :=
  if platforms.contains "all" then broadcasters
  else platforms.filterMap (fun p => broadcasters.find? (fun b => b.name == p))

/-- `broadcast` (src/broadcast.mjs lines 34-113).  Returns the result list
and, as the second component, the names of the adapters whose `send` was
actually invoked (empty when the pre-flight gate fires or no target resolves).
When any pre-flight failure was recorded, the recorded failures are returned
as `success: false` entries with the errors joined by `", "` and no `send` is
called. -/
def broadcast (broadcasters : List Adapter) (message : String)
    (platforms : List String) : List DispatchResult × List String :=
  let targets := resolveTargets broadcasters platforms
  if targets.isEmpty then ([], [])
  else
    let failures := preflightFailures targets message
    if !failures.isEmpty then
      (failures.map (fun f =>
        { success := false, platform := f.1,
          error := some (String.intercalate ", " f.2) }), [])
    else sendPhase targets message

/-- The X adapter as the dispatcher sees it (registered third,
src/broadcast.mjs lines 17-21), over its environment and the outcome of its
one network call.  `validateMessage` is the spec-modelled content validator. -/
def xAdapter (e : XEnv) (net : Except String String) : Adapter :=
  { name := "x"
    isConfigured := XBroadcaster.isConfigured e
    configurationErrors := XBroadcaster.getConfigurationErrors e
    validateMessage := some XBroadcaster.validateMessage
    send := fun _ => SendOutcome.ok (XBroadcaster.send e net) }

/-- The Telegram adapter as the dispatcher sees it (registered first).  The
class defines no `validateMessage`, so that field is `none`. -/
def tgAdapter (e : TgEnv) (net : TgNet) : Adapter :=
  { name := "telegram"
    isConfigured := TelegramBroadcaster.isConfigured e
    configurationErrors := TelegramBroadcaster.getConfigurationErrors e
    validateMessage := none
    send := fun _ => SendOutcome.ok (TelegramBroadcaster.send e net) }

/-- The VK adapter as the dispatcher sees it (registered second).  The class
defines no `validateMessage`, so that field is `none`. -/
def vkAdapter (e : VKEnv) (net : Except String Unit) : Adapter :=
  { name := "vk"
    isConfigured := VKBroadcaster.isConfigured e
    configurationErrors := VKBroadcaster.getConfigurationErrors e
    validateMessage := none
    send := fun _ => SendOutcome.ok (VKBroadcaster.send e net) }

/-- The registered adapter list in registration order (src/broadcast.mjs lines
17-21): Telegram (messaging), VK (wall), X (microblog). -/
def registeredBroadcasters (te : TgEnv) (tnet : TgNet) (ve : VKEnv)
    (vnet : Except String Unit) (xe : XEnv) (xnet : Except String String) :
    List Adapter :=
  [tgAdapter te tnet, vkAdapter ve vnet, xAdapter xe xnet]

/-! ## Vocabulary for the theorems -/

/-- An adapter fails the pre-flight pass for `message`: it is unconfigured, or
its `validateMessage` reports the message invalid. -/
def Adapter.failsPreflight (b : Adapter) (message : String) : Bool :=
  !b.isConfigured ||
    (match b.validateMessage with
     | some vm => !(vm message).isValid
     | none => false)

/-- The error strings the pre-flight pass records for a failing adapter. -/
def Adapter.recordedErrors (b : Adapter) (message : String) : List String :=
  if !b.isConfigured then
    ["Configuration errors: " ++ String.intercalate ", " b.configurationErrors]
  else
    match b.validateMessage with
    | some vm => (vm message).errors
    | none => []

/-- The `success: false` entry the dispatcher returns for an adapter that
failed the pre-flight pass. -/
def Adapter.recordedFailure (b : Adapter) (message : String) : DispatchResult :=
  { success := false, platform := b.name,
    error := some (String.intercalate ", " (Adapter.recordedErrors b message)) }

/-- How the dispatcher's send loop converts one adapter's `send` outcome. -/
def Adapter.sendResult (b : Adapter) (message : String) : DispatchResult :=
  match b.send message with
  | SendOutcome.ok res => res
  | SendOutcome.thrown msg =>
      { success := false, platform := b.name, error := some msg }

/-! ## Theorems -/

/-- C5: for every configuration of every platform, the `isValid` flag is true
exactly when the `validate()` error list is empty; a validation result is
never partially true. -/
theorem c5_isValid_iff_no_errors (xe : XEnv) (ve : VKEnv) (te : TgEnv) :
    (XConfig.isValid xe = true ↔ XConfig.validate xe = []) ∧
    (VKConfig.isValid ve = true ↔ VKConfig.validate ve = []) ∧
    (TelegramConfig.isValid te = true ↔ TelegramConfig.validate te = []) := by
  refine ⟨?_, ?_, ?_⟩ <;>
    simp [XConfig.isValid, VKConfig.isValid, TelegramConfig.isValid,
      List.length_eq_zero]

/-- C10: in the microblog configuration's `validate()`, the per-field
missing-credential branches are unreachable: for every environment the error
list is either empty or exactly the single aggregate
`at least one authentication method is required` message, because each
per-field check is guarded by a scheme predicate that already asserts all of
that scheme's fields are present. -/
theorem c10_per_field_branches_unreachable (e : XEnv) :
    XConfig.validate e = [] ∨ XConfig.validate e = [XConfig.noAuthError] := by
  cases h2 : XConfig.hasOAuth2UserAuth e with
  | true =>
    left
    have h2' := h2
    simp only [XConfig.hasOAuth2UserAuth, Bool.and_eq_true] at h2'
    obtain ⟨⟨⟨ha, hb⟩, hc⟩, hd⟩ := h2'
    simp [XConfig.validate, h2, ha, hb, hc, hd]
  | false =>
    cases h1 : XConfig.hasOAuth1UserAuth e with
    | true =>
      left
      have h1' := h1
      simp only [XConfig.hasOAuth1UserAuth, Bool.and_eq_true] at h1'
      obtain ⟨⟨⟨ha, hb⟩, hc⟩, hd⟩ := h1'
      simp [XConfig.validate, h2, h1, ha, hb, hc, hd]
    | false =>
      cases hbr : XConfig.hasBearerAuth e with
      | true => left; simp [XConfig.validate, h2, h1, hbr]
      | false => right; simp [XConfig.validate, h2, h1, hbr]

/-- C3: whenever both the modern OAuth 2.0 user scheme and the legacy OAuth
1.0a user scheme are complete, `initializeClient` selects the modern scheme
(`authMethod` is `OAuth 2.0 User`, so the legacy scheme is not used); and the
bearer-token scheme is selected only when neither user scheme is complete. -/
theorem c3_credential_scheme_priority (e e2 : XEnv)
    (h2 : XConfig.hasOAuth2UserAuth e = true)
    (h1 : XConfig.hasOAuth1UserAuth e = true)
    (hb : XBroadcaster.authMethod e2 = some "Bearer Token") :
    XBroadcaster.authMethod e = some "OAuth 2.0 User" ∧
    XConfig.hasOAuth2UserAuth e2 = false ∧
    XConfig.hasOAuth1UserAuth e2 = false := by
  refine ⟨by simp [XBroadcaster.authMethod, h2], ?_, ?_⟩
  · cases hx : XConfig.hasOAuth2UserAuth e2 with
    | false => rfl
    | true => simp [XBroadcaster.authMethod, hx] at hb
  · cases hx : XConfig.hasOAuth1UserAuth e2 with
    | false => rfl
    | true =>
      cases hy : XConfig.hasOAuth2UserAuth e2 with
      | true => simp [XBroadcaster.authMethod, hy] at hb
      | false => simp [XBroadcaster.authMethod, hy, hx] at hb

/-- Witness for C3 at concrete environments: one with both user schemes
complete, one with only the bearer token set. -/
theorem c3_credential_scheme_priority_witness :
    XBroadcaster.authMethod
        ⟨"cid", "csecret", "atoken", "atsecret", "akey", "aksecret", ""⟩ =
      some "OAuth 2.0 User" ∧
    XConfig.hasOAuth2UserAuth ⟨"", "", "", "", "", "", "btoken"⟩ = false ∧
    XConfig.hasOAuth1UserAuth ⟨"", "", "", "", "", "", "btoken"⟩ = false :=
  c3_credential_scheme_priority
    ⟨"cid", "csecret", "atoken", "atsecret", "akey", "aksecret", ""⟩
    ⟨"", "", "", "", "", "", "btoken"⟩ (by decide) (by decide) (by decide)

/-- The environment of C4's failing input: `X_CLIENT_ID` present but
`X_CLIENT_SECRET` absent (modern scheme dangling) while the legacy OAuth 1.0a
scheme is complete. -/
def xEnvPartialModern : XEnv :=
  { clientId := "cid", clientSecret := "", accessToken := "atoken",
    accessTokenSecret := "atsecret", apiKey := "akey", apiKeySecret := "aksecret",
    bearerToken := "" }

/-- The environment with only `X_CLIENT_ID` set (modern scheme dangling and no
other scheme complete). -/
def xEnvOnlyClientId : XEnv :=
  { clientId := "cid", clientSecret := "", accessToken := "",
    accessTokenSecret := "", apiKey := "", apiKeySecret := "",
    bearerToken := "" }

/-- C4 (failing input evaluation): with `X_CLIENT_ID` present and
`X_CLIENT_SECRET` absent, the code never reports the missing secret
individually.  With the legacy scheme complete, `isConfigured()` is even true
and `getConfigurationErrors()` empty; with no complete scheme, the error list
is exactly the single aggregate message, which is not a per-field entry.  The
claim (and spec section 4.1) requires an entry naming the missing secret and
`isConfigured()` false; the per-field branch in `XConfig.validate` that would
produce it is unreachable (see C10). -/
theorem c4_partial_scheme_not_reported :
    XBroadcaster.isConfigured xEnvPartialModern = true ∧
    XBroadcaster.getConfigurationErrors xEnvPartialModern = [] ∧
    XConfig.validate xEnvOnlyClientId = [XConfig.noAuthError] :=
  ⟨rfl, rfl, rfl⟩

/-- C7: for every resolved target entity, the user-client delete path invokes
the channel-scoped `channels.deleteMessages` exactly when the entity is a
`Channel` or a megagroup-flagged `Chat`, and otherwise (plain group or direct
conversation) invokes `messages.deleteMessages` with `revoke: true`. -/
theorem c7_delete_path_branching (entity : TgEntity) (messageId : Int) :
    TelegramBroadcaster.deleteViaUserCall entity messageId =
      (if entity.className == "Channel" ||
          (entity.className == "Chat" && entity.megagroup) then
        TgDeleteCall.channelsDeleteMessages [messageId]
      else TgDeleteCall.messagesDeleteMessages [messageId] true) := by
  cases h1 : entity.className == "Channel" <;>
    cases h2 : entity.className == "Chat" <;>
      cases h3 : entity.megagroup <;>
        simp [TelegramBroadcaster.deleteViaUserCall, h1, h2, h3]

/-- The pre-flight loop records exactly the failing targets, in order, each
with its recorded error strings. -/
theorem preflightFailures_eq_filter (targets : List Adapter) (message : String) :
    preflightFailures targets message =
      (targets.filter (fun b => b.failsPreflight message)).map
        (fun b => (b.name, Adapter.recordedErrors b message)) := by
  induction targets with
  | nil => rfl
  | cons b rest ih =>
    cases hc : b.isConfigured with
    | false =>
      simp [preflightFailures, Adapter.failsPreflight, Adapter.recordedErrors,
        hc, List.filter_cons, ih]
    | true =>
      cases hv : b.validateMessage with
      | none =>
        simp [preflightFailures, Adapter.failsPreflight, Adapter.recordedErrors,
          hc, hv, List.filter_cons, ih]
      | some vm =>
        cases hiv : (vm message).isValid with
        | false =>
          simp [preflightFailures, Adapter.failsPreflight,
            Adapter.recordedErrors, hc, hv, hiv, List.filter_cons, ih]
        | true =>
          simp [preflightFailures, Adapter.failsPreflight,
            Adapter.recordedErrors, hc, hv, hiv, List.filter_cons, ih]

/-- C1: the all-or-nothing pre-flight gate.  For every adapter list, message
and platform selection, if any selected adapter fails the pre-flight pass
(unconfigured, or its `validateMessage` reports the message invalid), then no
`send` is invoked on any selected adapter (the send log is empty) and the
dispatcher returns exactly the recorded failures: one `success: false` entry
per failing platform, in selection order, and no entry for a platform that
passed. -/
theorem c1_all_or_nothing_gate (broadcasters : List Adapter) (message : String)
    (platforms : List String)
    (hfail : ∃ b ∈ resolveTargets broadcasters platforms,
        b.failsPreflight message = true) :
    (broadcast broadcasters message platforms).2 = [] ∧
    (broadcast broadcasters message platforms).1 =
      ((resolveTargets broadcasters platforms).filter
          (fun b => b.failsPreflight message)).map
        (fun b => Adapter.recordedFailure b message) := by
  obtain ⟨b, hb, hfb⟩ := hfail
  have hne : (resolveTargets broadcasters platforms).isEmpty = false := by
    cases h : resolveTargets broadcasters platforms with
    | nil => rw [h] at hb; cases hb
    | cons _ _ => rfl
  have hmem : b ∈ (resolveTargets broadcasters platforms).filter
      (fun b => b.failsPreflight message) := List.mem_filter.mpr ⟨hb, hfb⟩
  have hfne : (preflightFailures (resolveTargets broadcasters platforms)
      message).isEmpty = false := by
    rw [preflightFailures_eq_filter]
    cases h : (resolveTargets broadcasters platforms).filter
        (fun b => b.failsPreflight message) with
    | nil => rw [h] at hmem; cases hmem
    | cons _ _ => rfl
  constructor
  · simp only [broadcast, hne, hfne, Bool.false_eq_true, if_false,
      Bool.not_false, if_true]
  · simp only [broadcast, hne, hfne, Bool.false_eq_true, if_false,
      Bool.not_false, if_true]
    rw [preflightFailures_eq_filter, List.map_map]
    rfl

/-- An adapter that fails configuration, for the C1 witness. -/
def unconfiguredAdapter : Adapter :=
  { name := "w", isConfigured := false, configurationErrors := ["E1"],
    validateMessage := none,
    send := fun _ => SendOutcome.ok { success := true, platform := "w" } }

/-- Witness for C1 at a concrete selection containing a failing adapter: no
send happens and the one recorded failure is returned. -/
theorem c1_all_or_nothing_gate_witness :
    (broadcast [unconfiguredAdapter] "hello" ["all"]).2 = [] ∧
    (broadcast [unconfiguredAdapter] "hello" ["all"]).1 =
      (([unconfiguredAdapter].filter
          (fun b => b.failsPreflight "hello")).map
        (fun b => Adapter.recordedFailure b "hello")) :=
  c1_all_or_nothing_gate [unconfiguredAdapter] "hello" ["all"]
    ⟨unconfiguredAdapter, by simp [resolveTargets], rfl⟩

/-- The send loop visits every selected adapter in order: its result list is
the pointwise conversion of each adapter's `send` outcome (a thrown fault
becomes a `success: false` entry and does not abort the loop) and its call log
is every adapter's name. -/
theorem sendPhase_eq_map (targets : List Adapter) (message : String) :
    (sendPhase targets message).1 =
        targets.map (fun b => Adapter.sendResult b message) ∧
    (sendPhase targets message).2 = targets.map Adapter.name := by
  induction targets with
  | nil => exact ⟨rfl, rfl⟩
  | cons b rest ih =>
    refine ⟨?_, ?_⟩ <;>
      simp [sendPhase, Adapter.sendResult, ih.1, ih.2]

/-- C6: the adapter boundary never throws, and the dispatcher isolates faults.
Whenever the try-block of an adapter's `send` throws (for the X adapter:
uninitialized client, bearer-token capability gap, or a network/API error; for
Telegram and VK analogously), the adapter's `send` returns a `success: false`
result carrying that error string instead of raising it; and in the
dispatcher's send phase every selected adapter is attempted — the result list
converts each adapter's outcome pointwise, a thrown fault becoming a
`success: false` entry for that platform without aborting the loop. -/
theorem c6_adapter_boundary_never_throws (xe : XEnv)
    (xnet : Except String String) (te : TgEnv) (tnet : TgNet) (ve : VKEnv)
    (vnet : Except String Unit) (ex et ev : String)
    (targets : List Adapter) (message : String)
    (hx : XBroadcaster.sendAttempt xe xnet = Except.error ex)
    (ht : TelegramBroadcaster.sendAttempt te tnet = Except.error et)
    (hv : VKBroadcaster.sendAttempt ve vnet = Except.error ev) :
    XBroadcaster.send xe xnet =
      { success := false, platform := "x", error := some ex } ∧
    TelegramBroadcaster.send te tnet =
      { success := false, platform := "telegram", error := some et } ∧
    VKBroadcaster.send ve vnet =
      { success := false, platform := "vk", error := some ev } ∧
    (sendPhase targets message).1 =
      targets.map (fun b => Adapter.sendResult b message) ∧
    (sendPhase targets message).2 = targets.map Adapter.name := by
  refine ⟨?_, ?_, ?_, (sendPhase_eq_map targets message).1,
    (sendPhase_eq_map targets message).2⟩
  · rw [XBroadcaster.send, hx]
  · rw [TelegramBroadcaster.send, ht]
  · rw [VKBroadcaster.send, hv]

/-- An environment with no X credentials at all (client never initialized). -/
def xEnvEmpty : XEnv := ⟨"", "", "", "", "", "", ""⟩

/-- An environment with no Telegram credentials at all. -/
def tgEnvEmpty : TgEnv := ⟨"", "", "", "", "", "", ""⟩

/-- An adapter whose `send` throws, for the C6 witness. -/
def throwingAdapter : Adapter :=
  { name := "w2", isConfigured := true, configurationErrors := [],
    validateMessage := none, send := fun _ => SendOutcome.thrown "boom" }

/-- Witness for C6 at concrete inputs: each adapter's thrown fault is
converted to a failure result, and the send loop converts a throwing adapter's
fault without aborting. -/
theorem c6_adapter_boundary_never_throws_witness :
    XBroadcaster.send xEnvEmpty (Except.ok "id") =
      { success := false, platform := "x",
        error := some "X.com client not initialized - check authentication credentials" } ∧
    TelegramBroadcaster.send tgEnvEmpty ⟨Except.ok 1, Except.ok 1,
        Except.ok (), Except.ok ()⟩ =
      { success := false, platform := "telegram",
        error := some "No valid authentication method configured" } ∧
    VKBroadcaster.send ⟨"t", "g"⟩ (Except.error "VK API error: boom") =
      { success := false, platform := "vk",
        error := some "VK API error: boom" } ∧
    (sendPhase [throwingAdapter] "m").1 =
      [throwingAdapter].map (fun b => Adapter.sendResult b "m") ∧
    (sendPhase [throwingAdapter] "m").2 = [throwingAdapter].map Adapter.name := by
  have h := c6_adapter_boundary_never_throws xEnvEmpty (Except.ok "id")
    tgEnvEmpty ⟨Except.ok 1, Except.ok 1, Except.ok (), Except.ok ()⟩
    ⟨"t", "g"⟩ (Except.error "VK API error: boom")
    "X.com client not initialized - check authentication credentials"
    "No valid authentication method configured" "VK API error: boom"
    [throwingAdapter] "m" rfl rfl rfl
  exact h

/-- A concrete environment with the modern OAuth 2.0 user scheme complete. -/
def xEnvOAuth2 : XEnv := ⟨"cid", "csecret", "atoken", "atsecret", "", "", ""⟩

/-- A concrete VK environment with both required settings present. -/
def vkEnvOk : VKEnv := ⟨"vtoken", "-123"⟩

/-- A concrete Telegram environment with the bot scheme complete. -/
def tgEnvBot : TgEnv := ⟨"btoken", "chan", "", "", "", "", ""⟩

/-- Telegram network outcomes where the bot send succeeds with message id 42. -/
def tnetOk : TgNet :=
  ⟨Except.ok 42, Except.error "user path unused", Except.ok (), Except.ok ()⟩

/-- A message of 281 characters (one over the microblog ceiling). -/
def msg281 : String := String.mk (List.replicate 281 'a')

set_option maxRecDepth 4000 in
/-- C2 (counterexample): dispatching a 281-character message to the selection
`x, vk` with both adapters validly configured returns ONE failure entry — only
the microblog platform, which failed content validation — not the two entries
the claim asserts; no send is attempted on either adapter.  The dispatcher
returns one entry per platform that failed pre-flight (src/broadcast.mjs lines
90-94), and the wall platform passed. -/
theorem c2_counterexample_single_failure_entry :
    (broadcast (registeredBroadcasters tgEnvBot tnetOk vkEnvOk (Except.ok ())
        xEnvOAuth2 (Except.ok "1777")) msg281 ["x", "vk"]).1 =
      [{ success := false, platform := "x",
         error := some "Message exceeds the 280 character limit for X.com" }] ∧
    (broadcast (registeredBroadcasters tgEnvBot tnetOk vkEnvOk (Except.ok ())
        xEnvOAuth2 (Except.ok "1777")) msg281 ["x", "vk"]).2 = [] ∧
    (broadcast (registeredBroadcasters tgEnvBot tnetOk vkEnvOk (Except.ok ())
        xEnvOAuth2 (Except.ok "1777")) msg281 ["x", "vk"]).1.length ≠ 2 := by
  refine ⟨rfl, rfl, ?_⟩
  have h1 : (broadcast (registeredBroadcasters tgEnvBot tnetOk vkEnvOk
      (Except.ok ()) xEnvOAuth2 (Except.ok "1777")) msg281
      ["x", "vk"]).1.length = 1 := rfl
  omega

/-- C2 (amended): the microblog content validator rejects exactly the texts
longer than 280 units; and for every message longer than 280 units dispatched
to `x, vk` with both adapters validly configured, the result list has exactly
one entry — the microblog platform's content-validation failure, with
`success: false` — the wall platform (which passed validation) gets no entry,
and no send is attempted on either adapter. -/
theorem c2_amended_overlong_message_gate (message : String)
    (hlen : 280 < message.length) (te : TgEnv) (tnet : TgNet) (ve : VKEnv)
    (vnet : Except String Unit) (xe : XEnv) (xnet : Except String String)
    (hx : XBroadcaster.isConfigured xe = true)
    (hv : VKBroadcaster.isConfigured ve = true) :
    (broadcast (registeredBroadcasters te tnet ve vnet xe xnet) message
        ["x", "vk"]).1 =
      [{ success := false, platform := "x",
         error := some "Message exceeds the 280 character limit for X.com" }] ∧
    (broadcast (registeredBroadcasters te tnet ve vnet xe xnet) message
        ["x", "vk"]).2 = [] ∧
    (∀ s : String,
      (XBroadcaster.validateMessage s).isValid = true ↔ s.length ≤ 280) := by
  have hiff : ∀ s : String,
      (XBroadcaster.validateMessage s).isValid = true ↔ s.length ≤ 280 := by
    intro s
    by_cases h : s.length > 280
    · simp [XBroadcaster.validateMessage, h]
    · simp [XBroadcaster.validateMessage, h]
      omega
  have htargets : resolveTargets (registeredBroadcasters te tnet ve vnet xe xnet)
      ["x", "vk"] = [xAdapter xe xnet, vkAdapter ve vnet] := rfl
  have hpre : preflightFailures [xAdapter xe xnet, vkAdapter ve vnet] message =
      [("x", ["Message exceeds the 280 character limit for X.com"])] := by
    simp [preflightFailures, xAdapter, vkAdapter, hx, hv,
      XBroadcaster.validateMessage, hlen]
  have hbro : broadcast (registeredBroadcasters te tnet ve vnet xe xnet) message
      ["x", "vk"] =
      ([{ success := false, platform := "x",
          error := some "Message exceeds the 280 character limit for X.com" }],
       []) := by
    rw [broadcast, htargets]
    simp only [hpre]
    rfl
  exact ⟨by rw [hbro], by rw [hbro], hiff⟩

/-- Witness for C2's amended theorem at the concrete 281-character message and
concrete configured environments. -/
theorem c2_amended_overlong_message_gate_witness :
    (broadcast (registeredBroadcasters tgEnvBot tnetOk vkEnvOk (Except.ok ())
        xEnvOAuth2 (Except.ok "1777")) msg281 ["x", "vk"]).1 =
      [{ success := false, platform := "x",
         error := some "Message exceeds the 280 character limit for X.com" }] ∧
    (broadcast (registeredBroadcasters tgEnvBot tnetOk vkEnvOk (Except.ok ())
        xEnvOAuth2 (Except.ok "1777")) msg281 ["x", "vk"]).2 = [] ∧
    (∀ s : String,
      (XBroadcaster.validateMessage s).isValid = true ↔ s.length ≤ 280) :=
  c2_amended_overlong_message_gate msg281
    (by set_option maxRecDepth 4000 in decide) tgEnvBot tnetOk vkEnvOk
    (Except.ok ()) xEnvOAuth2 (Except.ok "1777") rfl rfl

/-- C8 (failing-input evaluation): dispatching "Hello" to `all` with every
platform validly configured and every send succeeding yields 3 results in
registration order (telegram, vk, x), all `success: true`, with a
platform-typed `messageId` for the messaging (integer) and microblog (string)
platforms — but the wall (VK) entry carries NO `messageId` at all
(src/vk.mjs lines 103-107 return only `success`, `platform` and the raw
response), contradicting the claim, which requires a messageId on every
entry (and which the repository's own VK test suite asserts). -/
theorem c8_vk_result_lacks_messageId :
    (broadcast (registeredBroadcasters tgEnvBot tnetOk vkEnvOk (Except.ok ())
        xEnvOAuth2 (Except.ok "1777")) "Hello" ["all"]).1 =
      [{ success := true, platform := "telegram", method := some "bot",
         messageId := some (MsgId.int 42) },
       { success := true, platform := "vk" },
       { success := true, platform := "x",
         messageId := some (MsgId.str "1777"),
         method := some "OAuth 2.0 User" }] ∧
    (broadcast (registeredBroadcasters tgEnvBot tnetOk vkEnvOk (Except.ok ())
        xEnvOAuth2 (Except.ok "1777")) "Hello" ["all"]).1.map
        (fun r => r.messageId.isSome) = [true, false, true] ∧
    (broadcast (registeredBroadcasters tgEnvBot tnetOk vkEnvOk (Except.ok ())
        xEnvOAuth2 (Except.ok "1777")) "Hello" ["all"]).2 =
      ["telegram", "vk", "x"] :=
  ⟨rfl, rfl, rfl⟩

/-- C9 (counterexample): the microblog adapter's `test()` does not send a
canary message.  At a validly configured environment it succeeds while its
only underlying API operation is fetching the authenticated user — no tweet
is posted (and hence none deleted), although the adapter supports deletion. -/
theorem c9_counterexample_x_test_posts_no_canary :
    (XBroadcaster.test xEnvOAuth2 (Except.ok "alice")).1.success = true ∧
    (XBroadcaster.test xEnvOAuth2 (Except.ok "alice")).2 = [XApiCall.me] ∧
    ((XBroadcaster.test xEnvOAuth2 (Except.ok "alice")).2.any
      XApiCall.isTweetPost) = false :=
  ⟨rfl, rfl, rfl⟩

/-- C9 (amended): the messaging adapter's `test()` sends a canary and, when
the canary post succeeds, attempts its cleanup deletion, whose outcome never
changes `test()`'s result — the result's success equals the canary send's
success and is unchanged under any deletion outcome; the wall adapter's
`test()` sends a canary (it supports no deletion, so attempts no cleanup) and
likewise reports the send's own success; the microblog adapter's `test()`
never posts a canary at all — it checks connectivity by fetching the
authenticated user instead. -/
theorem c9_amended_test_canary_semantics (te : TgEnv)
    (bs us : Except String Int) (bd ud bd2 ud2 : Except String Unit)
    (ve : VKEnv) (vnet : Except String Unit) (xe : XEnv)
    (xnet : Except String String) :
    (TelegramBroadcaster.test te ⟨bs, us, bd, ud⟩).1.success =
      (TelegramBroadcaster.send te ⟨bs, us, bd, ud⟩).success ∧
    TelegramBroadcaster.test te ⟨bs, us, bd, ud⟩ =
      TelegramBroadcaster.test te ⟨bs, us, bd2, ud2⟩ ∧
    (TelegramBroadcaster.test te ⟨bs, us, bd, ud⟩).2 =
      TgOp.send tgCanaryText ::
        (if (TelegramBroadcaster.send te ⟨bs, us, bd, ud⟩).success then
          [TgOp.deleteCleanup] else []) ∧
    (VKBroadcaster.test ve vnet).1.success = (VKBroadcaster.send ve vnet).success ∧
    (VKBroadcaster.test ve vnet).2 = [VKOp.send vkCanaryText] ∧
    ((XBroadcaster.test xe xnet).2.any XApiCall.isTweetPost) = false := by
  refine ⟨?_, rfl, ?_, ?_, ?_, ?_⟩
  · cases hr : (TelegramBroadcaster.send te ⟨bs, us, bd, ud⟩).success <;>
      simp [TelegramBroadcaster.test, hr]
  · cases hr : (TelegramBroadcaster.send te ⟨bs, us, bd, ud⟩).success <;>
      simp [TelegramBroadcaster.test, hr]
  · cases hr : (VKBroadcaster.send ve vnet).success <;>
      simp [VKBroadcaster.test, hr]
  · cases hr : (VKBroadcaster.send ve vnet).success <;>
      simp [VKBroadcaster.test, hr]
  · cases hc : XBroadcaster.isConfigured xe with
    | false => simp [XBroadcaster.test, hc]
    | true =>
      cases hb : XBroadcaster.authMethod xe == some "Bearer Token" with
      | true => simp [XBroadcaster.test, hc, hb]
      | false =>
        cases xnet with
        | ok u => simp [XBroadcaster.test, hc, hb, XApiCall.isTweetPost]
        | error m => simp [XBroadcaster.test, hc, hb, XApiCall.isTweetPost]
